import Mathlib

/-!
Verification development for the Fabric GUI repository.

The definitions below are shallow embeddings of the TypeScript sources:
  * `src/fabric-gui-tauri/src/stores/ai.ts` — the AI output store (zustand);
  * `src/unnamed/part_005` — a second variant of the same store whose
    `setError` does not touch the streaming flag;
  * `src/unnamed/part_006` — the pattern store (`toggleFavorite`);
  * `src/unnamed/part_007` — the settings store (`setApiKey` / `getApiKey`);
  * `src/unnamed/part_001` — the first `App.tsx` variant (`runPattern`);
  * `src/unnamed/part_002` — the second `App.tsx` variant (`runPattern`
    with url / youtube pre-processing).
Stateful zustand actions become pure state-transition functions; the
asynchronous backend boundary (`fetch`, `get_youtube_transcript`,
`run_pattern`) becomes an explicit environment record consumed by the
orchestrator model, which also records which external calls were issued.
-/

namespace Fabric

/-- Input mode union type from `stores/ai.ts`: "text" | "url" | "youtube". -/
inductive InputMode where
  | text
  | url
  | youtube
deriving DecidableEq

/-- State of the AI store from `stores/ai.ts` / `part_005`:
input fields plus the output buffer, the streaming flag and the optional
error message (`string | null` becomes `Option String`). -/
structure AIState where
  inputMode : InputMode
  inputText : String
  includeTimestamps : Bool
  output : String
  isStreaming : Bool
  error : Option String
deriving DecidableEq

/-- Initial store state from the `create` call in `stores/ai.ts`. -/
def initialAIState : AIState :=
  { inputMode := InputMode.text
    inputText := ""
    includeTimestamps := false
    output := ""
    isStreaming := false
    error := none }

/-- `setInputMode: (mode) => set({ inputMode: mode })`. -/
def setInputMode (s : AIState) (m : InputMode) : AIState :=
  { s with inputMode := m }

/-- `setInputText: (text) => set({ inputText: text })`. -/
def setInputText (s : AIState) (t : String) : AIState :=
  { s with inputText := t }

/-- `setIncludeTimestamps: (include) => set({ includeTimestamps: include })`. -/
def setIncludeTimestamps (s : AIState) (b : Bool) : AIState :=
  { s with includeTimestamps := b }

/-- `appendOutput: (chunk) => set((state) => ({ output: state.output + chunk }))`
(`stores/ai.ts` line 33, identical in `part_005` line 37). -/
def appendOutput (s : AIState) (chunk : String) : AIState :=
  { s with output := s.output ++ chunk }

/-- `clearOutput: () => set({ output: "", error: null })`
(`stores/ai.ts` line 34). -/
def clearOutput (s : AIState) : AIState :=
  { s with output := "", error := none }

/-- `setStreaming: (streaming) => set({ isStreaming: streaming })`. -/
def setStreaming (s : AIState) (b : Bool) : AIState :=
  { s with isStreaming := b }

/-- `setError: (error) => set({ error, isStreaming: false })`
(`stores/ai.ts` line 36): stores the message and clears the streaming flag. -/
def setError (s : AIState) (e : Option String) : AIState :=
  { s with error := e, isStreaming := false }

namespace AltStore

/-- `setError: (error) => set({ error })` (`part_005` line 40): this store
variant stores the message but leaves `isStreaming` untouched. -/
def setError (s : AIState) (e : Option String) : AIState :=
  { s with error := e }

end AltStore

/-- One action of the `stores/ai.ts` store interface. -/
inductive AIAction where
  | setInputMode (m : InputMode)
  | setInputText (t : String)
  | setIncludeTimestamps (b : Bool)
  | appendOutput (c : String)
  | clearOutput
  | setStreaming (b : Bool)
  | setError (e : Option String)

/-- Apply one `stores/ai.ts` action to a state. -/
def applyAction (s : AIState) : AIAction → AIState
  | AIAction.setInputMode m => setInputMode s m
  | AIAction.setInputText t => setInputText s t
  | AIAction.setIncludeTimestamps b => setIncludeTimestamps s b
  | AIAction.appendOutput c => appendOutput s c
  | AIAction.clearOutput => clearOutput s
  | AIAction.setStreaming b => setStreaming s b
  | AIAction.setError e => setError s e

/-- Run a list of store actions from a state, in order. -/
def runActions (s : AIState) (acts : List AIAction) : AIState :=
  acts.foldl applyAction s

/-- A state of the `stores/ai.ts` store is reachable when some finite action
sequence produces it from the initial state. -/
def ReachableAI (s : AIState) : Prop :=
  ∃ acts : List AIAction, runActions initialAIState acts = s

/-- `toggleFavorite` from the pattern store (`part_006` lines 34-41):
remove the name when present (`favorites.filter((f) => f !== name)`),
append it otherwise (`[...favorites, name]`). -/
def toggleFavorite (favorites : List String) (name : String) : List String :=
  if favorites.contains name then
    favorites.filter (fun f => f != name)
  else
    favorites ++ [name]

/-- Vendor union type from `part_007`:
"google" | "openai" | "anthropic" | "ollama". -/
inductive Vendor where
  | google
  | openai
  | anthropic
  | ollama
deriving DecidableEq

/-- String value of a vendor, as interpolated into error messages. -/
def vendorName : Vendor → String
  | Vendor.google => "google"
  | Vendor.openai => "openai"
  | Vendor.anthropic => "anthropic"
  | Vendor.ollama => "ollama"

/-- Theme union type from `part_007`: "light" | "dark" | "system". -/
inductive Theme where
  | light
  | dark
  | system
deriving DecidableEq

/-- Settings store state from `part_007` (per-vendor keys, preferences,
theme); the float fields temperature / topP become exact rationals. -/
structure Settings where
  googleApiKey : String
  openaiApiKey : String
  anthropicApiKey : String
  ollamaUrl : String
  vendor : Vendor
  model : String
  temperature : Rat
  topP : Rat
  strategy : String
  thinkingLevel : Nat
  theme : Theme
deriving DecidableEq

/-- `setApiKey` from `part_007` lines 53-65: a switch over the vendor with
cases for google / openai / anthropic only — the ollama case falls through
the switch without any `set`, leaving the state unchanged. -/
def setApiKey (s : Settings) (vendor : Vendor) (key : String) : Settings :=
  match vendor with
  | Vendor.google => { s with googleApiKey := key }
  | Vendor.openai => { s with openaiApiKey := key }
  | Vendor.anthropic => { s with anthropicApiKey := key }
  | Vendor.ollama => s

/-- `getApiKey` from `part_007` lines 75-87: a switch returning the stored
key for google / openai / anthropic and `""` in the default case, which is
the one ollama reaches. -/
def getApiKey (s : Settings) (vendor : Vendor) : String :=
  match vendor with
  | Vendor.google => s.googleApiKey
  | Vendor.openai => s.openaiApiKey
  | Vendor.anthropic => s.anthropicApiKey
  | Vendor.ollama => ""

/-- Request payload built by `runPattern` in `part_002` and passed to the
`run_pattern` backend command. -/
structure RunRequest where
  vendor : Vendor
  model : String
  api_key : String
  system_prompt : String
  user_input : String
  temperature : Rat
  top_p : Rat
  thinking_level : Nat
deriving DecidableEq

/-- Parsed JSON envelope returned by the `get_youtube_transcript` command:
an optional `error` field, the transcript text and the video id. -/
structure TranscriptData where
  error : Option String
  transcript : String
  video_id : String
deriving DecidableEq

/-- Outcome of the `fetch(jinaUrl)` call in `part_002`: an ok response with
a text body, or a response with `ok` false. -/
inductive FetchResponse where
  | ok (body : String)
  | notOk
deriving DecidableEq

/-- Environment for one `runPattern` invocation in `part_002`: the responses
the external calls would return if issued. `backendFailure = some m` means
the `run_pattern` invoke rejects with an error whose message is `m`;
`none` means it resolves. -/
structure RunEnv where
  transcriptData : TranscriptData
  fetchResponse : FetchResponse
  backendFailure : Option String
deriving DecidableEq

/-- Result of one modelled `runPattern` call from `part_002`: the final store
state, which external calls were issued, the request handed to `run_pattern`
when it was invoked, and the store state at the moment of that invocation
(the buffer content a first streamed chunk would be appended to). -/
structure RunResult where
  state : AIState
  transcriptInvoked : Bool
  fetchInvoked : Bool
  backendInvoked : Bool
  backendRequest : Option RunRequest
  stateAtInvoke : Option AIState
deriving DecidableEq

/-- Validation message set by the guard at `part_002` lines 66-69. -/
def validationMsg : String := "Please select a pattern and provide input."

/-- Progress banner appended before the youtube transcript call. -/
def progressYoutube : String := "> 🎬 Fetching YouTube transcript...\n\n"

/-- Progress banner appended before the url scrape fetch. -/
def progressUrl : String := "> 🌐 Scraping URL content...\n\n"

/-- Banner appended after a successful transcript fetch. -/
def videoBanner (vid : String) : String := "> 📝 Video: " ++ vid ++ "\n\n"

/-- Banner appended after a successful url scrape. -/
def contentBanner (u : String) : String := "> 📄 Content from " ++ u ++ "\n\n"

/-- Missing-credential message thrown at `part_002` lines 77-79. -/
def apiKeyMsg (v : Vendor) : String :=
  "API key for " ++ vendorName v ++ " not found. Please check Settings."

/-- `err.message || String(err)` for a caught error whose message is `m`:
the message when truthy, otherwise the string form of a bare `Error`. -/
def jsErrMessage (m : String) : String :=
  if m = "" then "Error" else m

/-- Tail of `runPattern` in `part_002` (lines 103-117): build the request
record, invoke `run_pattern`, and on rejection run the catch
(`setError(err.message || String(err))`); the `finally` clears streaming. -/
def invokeBackend (pattern : String) (settings : Settings) (finalInput : String)
    (s : AIState) (tInv fInv : Bool) (env : RunEnv) : RunResult :=
  let request : RunRequest :=
    { vendor := settings.vendor
      model := settings.model
      api_key := getApiKey settings settings.vendor
      system_prompt := pattern
      user_input := finalInput
      temperature := settings.temperature
      top_p := settings.topP
      thinking_level := settings.thinkingLevel }
  match env.backendFailure with
  | none =>
      { state := setStreaming s false
        transcriptInvoked := tInv
        fetchInvoked := fInv
        backendInvoked := true
        backendRequest := some request
        stateAtInvoke := some s }
  | some m =>
      { state := setStreaming (setError s (some (jsErrMessage m))) false
        transcriptInvoked := tInv
        fetchInvoked := fInv
        backendInvoked := true
        backendRequest := some request
        stateAtInvoke := some s }

/-- `runPattern` from `part_002` lines 65-120.  Control flow, in source
order: the guard `!selectedPattern || (!inputText && inputMode !== "text")`
sets the validation error and returns; `clearOutput()`; `setStreaming(true)`;
inside the try, an empty `getApiKey(vendor)` result throws; youtube mode
appends a progress banner, invokes the transcript command, throws when the
parsed envelope has a truthy `error`, else clears and appends the video
banner; url mode appends a progress banner, fetches, throws on a non-ok
response, else clears and appends the content banner; then `run_pattern`
is invoked.  The catch stores the thrown message via `setError`; the
`finally` always runs `setStreaming(false)`. -/
def runPattern2 (selectedPattern : Option String) (settings : Settings)
    (s0 : AIState) (env : RunEnv) : RunResult :=
  match selectedPattern with
  | none =>
      { state := setError s0 (some validationMsg)
        transcriptInvoked := false
        fetchInvoked := false
        backendInvoked := false
        backendRequest := none
        stateAtInvoke := none }
  | some pattern =>
    if s0.inputText = "" ∧ s0.inputMode ≠ InputMode.text then
      { state := setError s0 (some validationMsg)
        transcriptInvoked := false
        fetchInvoked := false
        backendInvoked := false
        backendRequest := none
        stateAtInvoke := none }
    else
      let s1 := setStreaming (clearOutput s0) true
      let apiKey := getApiKey settings settings.vendor
      if apiKey = "" then
        { state := setStreaming (setError s1 (some (apiKeyMsg settings.vendor))) false
          transcriptInvoked := false
          fetchInvoked := false
          backendInvoked := false
          backendRequest := none
          stateAtInvoke := none }
      else
        match s0.inputMode with
        | InputMode.youtube =>
            let s2 := appendOutput s1 progressYoutube
            let data := env.transcriptData
            match data.error with
            | some e =>
                if e = "" then
                  let s3 := appendOutput (clearOutput s2) (videoBanner data.video_id)
                  invokeBackend pattern settings data.transcript s3 true false env
                else
                  { state := setStreaming (setError s2 (some e)) false
                    transcriptInvoked := true
                    fetchInvoked := false
                    backendInvoked := false
                    backendRequest := none
                    stateAtInvoke := none }
            | none =>
                let s3 := appendOutput (clearOutput s2) (videoBanner data.video_id)
                invokeBackend pattern settings data.transcript s3 true false env
        | InputMode.url =>
            let s2 := appendOutput s1 progressUrl
            match env.fetchResponse with
            | FetchResponse.ok body =>
                let s3 := appendOutput (clearOutput s2) (contentBanner s0.inputText)
                invokeBackend pattern settings body s3 false true env
            | FetchResponse.notOk =>
                { state := setStreaming (setError s2 (some "Failed to scrape URL")) false
                  transcriptInvoked := false
                  fetchInvoked := true
                  backendInvoked := false
                  backendRequest := none
                  stateAtInvoke := none }
        | InputMode.text =>
            invokeBackend pattern settings s0.inputText s1 false false env

/-- Model of the JavaScript `String.prototype.trim`: drop whitespace
characters from both ends of the string (structural, so it evaluates). -/
def jsTrim (s : String) : String :=
  ⟨((s.data.dropWhile Char.isWhitespace).reverse.dropWhile Char.isWhitespace).reverse⟩

/-- Request payload passed to `run_pattern` by `part_001` lines 52-60. -/
structure Run1Request where
  pattern : String
  input : String
  vendor : Vendor
  model : String
  apiKey : String
  temperature : Rat
  topP : Rat
deriving DecidableEq

/-- Result of one modelled `runPattern` call from `part_001`. -/
structure Run1Result where
  state : AIState
  backendInvoked : Bool
  backendRequest : Option Run1Request
deriving DecidableEq

/-- `runPattern` from `part_001` lines 44-67: the guard
`!selectedPattern || !inputText.trim()` returns silently (no error is set);
otherwise `clearOutput()`, `setStreaming(true)`, then `run_pattern` is
invoked with `getApiKey(vendor)` — with no check that the key is non-empty.
A rejection is caught by `setError(e.message || "An error occurred")`; the
`finally` runs `setStreaming(false)`. -/
def runPattern1 (selectedPattern : Option String) (settings : Settings)
    (s0 : AIState) (backendFailure : Option String) : Run1Result :=
  match selectedPattern with
  | none => { state := s0, backendInvoked := false, backendRequest := none }
  | some pattern =>
    if jsTrim s0.inputText = "" then
      { state := s0, backendInvoked := false, backendRequest := none }
    else
      let s1 := setStreaming (clearOutput s0) true
      let request : Run1Request :=
        { pattern := pattern
          input := s0.inputText
          vendor := settings.vendor
          model := settings.model
          apiKey := getApiKey settings settings.vendor
          temperature := settings.temperature
          topP := settings.topP }
      match backendFailure with
      | none =>
          { state := setStreaming s1 false
            backendInvoked := true
            backendRequest := some request }
      | some m =>
          { state := setStreaming
              (setError s1 (some (if m = "" then "An error occurred" else m))) false
            backendInvoked := true
            backendRequest := some request }

/-! ### Concrete fixtures for witnesses and counterexamples -/

/-- Settings with a configured google key, otherwise store defaults. -/
def cfgSettings : Settings :=
  { googleApiKey := "AIza-test"
    openaiApiKey := ""
    anthropicApiKey := ""
    ollamaUrl := "http://localhost:11434"
    vendor := Vendor.google
    model := "gemini-2.0-flash"
    temperature := 7 / 10
    topP := 9 / 10
    strategy := "none"
    thinkingLevel := 0
    theme := Theme.dark }

/-- Settings identical to `cfgSettings` but with no google key configured. -/
def noKeySettings : Settings := { cfgSettings with googleApiKey := "" }

/-- Store state in youtube mode with a video url entered. -/
def ytState : AIState :=
  { initialAIState with
      inputMode := InputMode.youtube
      inputText := "https://youtube.com/watch?v=abc" }

/-- Store state in url mode with an article url entered. -/
def urlState : AIState :=
  { initialAIState with
      inputMode := InputMode.url
      inputText := "https://example.com/article" }

/-- Store state in text mode with a short text entered. -/
def textState : AIState :=
  { initialAIState with inputText := "Hello world" }

/-- Environment where the transcript backend reports an error envelope. -/
def ytErrEnv : RunEnv :=
  { transcriptData := { error := some "no captions", transcript := "", video_id := "" }
    fetchResponse := FetchResponse.notOk
    backendFailure := none }

/-- Environment where every external call succeeds. -/
def okEnv : RunEnv :=
  { transcriptData := { error := none, transcript := "the transcript", video_id := "abc" }
    fetchResponse := FetchResponse.ok "scraped page"
    backendFailure := none }

/-- Environment where the url scrape returns a non-ok response. -/
def fetchFailEnv : RunEnv :=
  { okEnv with fetchResponse := FetchResponse.notOk }

/-! ### Theorems -/

/-- The output field after folding `appendOutput` over a chunk list is the
left fold of string append over the same list, started at the prior buffer. -/
theorem output_foldl_appendOutput (chunks : List String) (s : AIState) :
    (chunks.foldl appendOutput s).output = chunks.foldl (fun a c => a ++ c) s.output := by
  induction chunks generalizing s with
  | nil => rfl
  | cons c cs ih => simpa [appendOutput] using ih (appendOutput s c)

/-- Claim C1: delivering any finite sequence of chunks, in order, via
`appendOutput` to a store whose buffer starts empty leaves the buffer equal
to the concatenation of the chunks in delivery order — no chunk is dropped
or reordered. -/
theorem C1_buffer_is_concat (s0 : AIState) (chunks : List String)
    (h : s0.output = "") :
    (chunks.foldl appendOutput s0).output = String.join chunks := by
  rw [output_foldl_appendOutput, h]
  rfl

/-- Witness for C1 at a concrete chunk sequence from the empty initial
store state. -/
theorem C1_buffer_is_concat_witness :
    initialAIState.output = "" ∧
      (List.foldl appendOutput initialAIState ["He", "llo ", "world"]).output =
        String.join ["He", "llo ", "world"] :=
  ⟨rfl, C1_buffer_is_concat initialAIState ["He", "llo ", "world"] rfl⟩

/-- A concrete reachable state of the `stores/ai.ts` store: set an error,
then set the streaming flag back to true. -/
def c2BadState : AIState :=
  runActions initialAIState
    [AIAction.setError (some "boom"), AIAction.setStreaming true]

/-- Counterexample to claim C2 as stated: the state reached by
`setError "boom"` followed by `setStreaming true` is reachable in the
`stores/ai.ts` store yet has a non-null error with `isStreaming = true`;
and in the `part_005` store variant, `setError` applied to a streaming
state leaves `isStreaming = true`, so that variant's `setError` does not
produce `isStreaming = false` for every prior state. -/
theorem C2_counterexample :
    (ReachableAI c2BadState ∧ c2BadState.error = some "boom" ∧
        c2BadState.isStreaming = true) ∧
      (AltStore.setError { initialAIState with isStreaming := true }
          (some "boom")).isStreaming = true :=
  ⟨⟨⟨[AIAction.setError (some "boom"), AIAction.setStreaming true], rfl⟩, rfl, rfl⟩, rfl⟩

/-- Claim C2, amended: the `setError` transition of the store in
`stores/ai.ts` stores its argument and always produces `isStreaming = false`,
for every prior state; the `part_005` variant stores the argument but leaves
`isStreaming` unchanged.  Neither store makes `error ≠ null → ¬isStreaming`
an invariant of all reachable states, since `setStreaming true` can follow
`setError` without clearing the error. -/
theorem C2_setError_streaming (s : AIState) (e : Option String) :
    ((setError s e).isStreaming = false ∧ (setError s e).error = e) ∧
      ((AltStore.setError s e).isStreaming = s.isStreaming ∧
        (AltStore.setError s e).error = e) :=
  ⟨⟨rfl, rfl⟩, rfl, rfl⟩

/-- Claim C8: toggling a favorite name twice restores exactly the original
membership of the favorites list, for every list, toggled name and queried
element. -/
theorem C8_toggleFavorite_involutive (favorites : List String) (name x : String) :
    x ∈ toggleFavorite (toggleFavorite favorites name) name ↔ x ∈ favorites := by
  by_cases h : name ∈ favorites <;> by_cases hx : x = name <;>
    simp [toggleFavorite, List.contains, h, hx]

/-- Folding string append from a given accumulator factors the accumulator
out front. -/
theorem foldl_append_init (l : List String) (a : String) :
    l.foldl (fun x c => x ++ c) a = a ++ l.foldl (fun x c => x ++ c) "" := by
  induction l generalizing a with
  | nil => simp
  | cons c cs ih =>
    simp only [List.foldl]
    rw [ih (a ++ c), ih (("" : String) ++ c)]
    simp [String.append_assoc]

/-- Claim C9: `setError` in `stores/ai.ts` clears the streaming flag and
stores the message while leaving the output field unchanged; in particular
chunks already appended before the failure all remain in the buffer. -/
theorem C9_setError_frame (s : AIState) (e : Option String) (chunks : List String) :
    ((setError s e).output = s.output ∧ (setError s e).isStreaming = false ∧
        (setError s e).error = e) ∧
      (setError (chunks.foldl appendOutput s) e).output =
        s.output ++ chunks.foldl (fun a c => a ++ c) "" := by
  refine ⟨⟨rfl, rfl, rfl⟩, ?_⟩
  show (chunks.foldl appendOutput s).output = _
  rw [output_foldl_appendOutput, foldl_append_init]

/-- Claim C10: in the settings store, `setApiKey` with vendor ollama leaves
the whole settings state unchanged, and `getApiKey` with vendor ollama
returns the empty string, whatever is stored. -/
theorem C10_ollama_noop (s : Settings) (k : String) :
    setApiKey s Vendor.ollama k = s ∧ getApiKey s Vendor.ollama = "" :=
  ⟨rfl, rfl⟩

/-- Claim C6: in every run in url mode whose content-extraction fetch
returns a non-ok response, the `run_pattern` backend command is never
invoked, whatever the pattern selection, settings and prior store state. -/
theorem C6_url_fetch_fail_no_backend (sp : Option String) (settings : Settings)
    (s0 : AIState) (env : RunEnv) (hm : s0.inputMode = InputMode.url)
    (hf : env.fetchResponse = FetchResponse.notOk) :
    (runPattern2 sp settings s0 env).backendInvoked = false := by
  cases sp with
  | none => rfl
  | some p =>
    simp only [runPattern2, hm, hf]
    split
    · rfl
    · split <;> rfl

/-- Witness for C6: a concrete url-mode run against a failing fetch. -/
theorem C6_url_fetch_fail_no_backend_witness :
    urlState.inputMode = InputMode.url ∧
      fetchFailEnv.fetchResponse = FetchResponse.notOk ∧
      (runPattern2 (some "summarize") cfgSettings urlState fetchFailEnv).backendInvoked
        = false :=
  ⟨rfl, rfl,
    C6_url_fetch_fail_no_backend (some "summarize") cfgSettings urlState fetchFailEnv
      rfl rfl⟩

/-- Counterexample to claim C3 as stated: in the cited scenario (youtube
mode, transcript backend answering with error "no captions") the run does
set the error and end with streaming false, but the output buffer is NOT
empty — it still holds the progress banner appended before the transcript
call. -/
theorem C3_counterexample :
    (runPattern2 (some "summarize") cfgSettings ytState ytErrEnv).state.error
        = some "no captions" ∧
      (runPattern2 (some "summarize") cfgSettings ytState ytErrEnv).state.isStreaming
        = false ∧
      (runPattern2 (some "summarize") cfgSettings ytState ytErrEnv).state.output
        = progressYoutube ∧
      progressYoutube ≠ "" :=
  ⟨rfl, rfl, rfl, by decide⟩

/-- Claim C3, amended: a url or youtube run whose content fetch fails aborts
with the error message set, streaming false and `run_pattern` not invoked,
but the output buffer is left holding exactly the progress banner appended
before the failed call, not the empty string. -/
theorem C3_fetch_failure_aborts (p : String) (settings : Settings) (s0 : AIState)
    (env : RunEnv) (hkey : getApiKey settings settings.vendor ≠ "")
    (hin : s0.inputText ≠ "") :
    (∀ e, s0.inputMode = InputMode.youtube → env.transcriptData.error = some e →
        e ≠ "" →
        (runPattern2 (some p) settings s0 env).state.output = progressYoutube ∧
          (runPattern2 (some p) settings s0 env).state.error = some e ∧
          (runPattern2 (some p) settings s0 env).state.isStreaming = false ∧
          (runPattern2 (some p) settings s0 env).backendInvoked = false) ∧
      (s0.inputMode = InputMode.url → env.fetchResponse = FetchResponse.notOk →
        (runPattern2 (some p) settings s0 env).state.output = progressUrl ∧
          (runPattern2 (some p) settings s0 env).state.error
            = some "Failed to scrape URL" ∧
          (runPattern2 (some p) settings s0 env).state.isStreaming = false ∧
          (runPattern2 (some p) settings s0 env).backendInvoked = false) := by
  constructor
  · intro e hm ht hne
    simp only [runPattern2, hm, ht]
    rw [if_neg (fun h => hin h.1), if_neg hkey, if_neg hne]
    exact ⟨rfl, rfl, rfl, rfl⟩
  · intro hm hf
    simp only [runPattern2, hm, hf]
    rw [if_neg (fun h => hin h.1), if_neg hkey]
    exact ⟨rfl, rfl, rfl, rfl⟩

/-- Witness for the amended C3 at the spec scenario: youtube mode, transcript
backend answering with error "no captions". -/
theorem C3_fetch_failure_aborts_witness :
    getApiKey cfgSettings cfgSettings.vendor ≠ "" ∧ ytState.inputText ≠ "" ∧
      ((runPattern2 (some "summarize") cfgSettings ytState ytErrEnv).state.output
          = progressYoutube ∧
        (runPattern2 (some "summarize") cfgSettings ytState ytErrEnv).state.error
          = some "no captions" ∧
        (runPattern2 (some "summarize") cfgSettings ytState ytErrEnv).state.isStreaming
          = false ∧
        (runPattern2 (some "summarize") cfgSettings ytState ytErrEnv).backendInvoked
          = false) :=
  ⟨by decide, by decide,
    (C3_fetch_failure_aborts "summarize" cfgSettings ytState ytErrEnv (by decide)
        (by decide)).1 "no captions" rfl rfl (by decide)⟩

/-- Counterexample to claim C4 as stated: in a successful url-mode run the
buffer is not empty when `run_pattern` is invoked (hence when the first
chunk arrives) — it holds the content banner appended after the scrape. -/
theorem C4_counterexample :
    (runPattern2 (some "summarize") cfgSettings urlState okEnv).backendInvoked
        = true ∧
      ((runPattern2 (some "summarize") cfgSettings urlState okEnv).stateAtInvoke.map
          AIState.output) = some (contentBanner "https://example.com/article") ∧
      contentBanner "https://example.com/article" ≠ "" :=
  ⟨rfl, rfl, by decide⟩

/-- Claim C4, amended: every run that reaches the backend first resets the
buffer to empty and clears any prior error (`clearOutput`); in text mode the
buffer is still empty when `run_pattern` is invoked, while in url and
youtube modes it holds exactly the post-fetch banner at that point. -/
theorem C4_run_start_resets (p : String) (settings : Settings) (s0 : AIState)
    (env : RunEnv) (hkey : getApiKey settings settings.vendor ≠ "") :
    (s0.inputMode = InputMode.text →
        (runPattern2 (some p) settings s0 env).stateAtInvoke
            = some (setStreaming (clearOutput s0) true) ∧
          (setStreaming (clearOutput s0) true).output = "" ∧
          (setStreaming (clearOutput s0) true).error = none) ∧
      (∀ body, s0.inputMode = InputMode.url → s0.inputText ≠ "" →
        env.fetchResponse = FetchResponse.ok body →
          ((runPattern2 (some p) settings s0 env).stateAtInvoke.map AIState.output)
            = some (contentBanner s0.inputText)) ∧
      (s0.inputMode = InputMode.youtube → s0.inputText ≠ "" →
        env.transcriptData.error = none →
          ((runPattern2 (some p) settings s0 env).stateAtInvoke.map AIState.output)
            = some (videoBanner env.transcriptData.video_id)) := by
  refine ⟨?_, ?_, ?_⟩
  · intro hm
    simp only [runPattern2, hm]
    rw [if_neg (fun h => h.2 rfl), if_neg hkey]
    cases hbf : env.backendFailure <;> simp [invokeBackend, hbf] <;>
      exact ⟨rfl, rfl⟩
  · intro body hm hin hf
    simp only [runPattern2, hm, hf]
    rw [if_neg (fun h => hin h.1), if_neg hkey]
    cases hbf : env.backendFailure <;> simp only [invokeBackend, hbf] <;> rfl
  · intro hm hin ht
    simp only [runPattern2, hm, ht]
    rw [if_neg (fun h => hin h.1), if_neg hkey]
    cases hbf : env.backendFailure <;> simp only [invokeBackend, hbf] <;> rfl

/-- Witness for the amended C4: a concrete text-mode run. -/
theorem C4_run_start_resets_witness :
    getApiKey cfgSettings cfgSettings.vendor ≠ "" ∧
      textState.inputMode = InputMode.text ∧
      ((runPattern2 (some "summarize") cfgSettings textState okEnv).stateAtInvoke
          = some (setStreaming (clearOutput textState) true) ∧
        (setStreaming (clearOutput textState) true).output = "" ∧
        (setStreaming (clearOutput textState) true).error = none) :=
  ⟨by decide, rfl,
    (C4_run_start_resets "summarize" cfgSettings textState okEnv (by decide)).1 rfl⟩

/-- Counterexample to claim C5 as stated: in the `part_001` variant a run
with no credential configured for the selected vendor is not rejected — the
`run_pattern` backend command is invoked, carrying the empty key. -/
theorem C5_counterexample :
    getApiKey noKeySettings noKeySettings.vendor = "" ∧
      (runPattern1 (some "summarize") noKeySettings textState none).backendInvoked
        = true ∧
      ((runPattern1 (some "summarize") noKeySettings textState none).backendRequest.map
          Run1Request.apiKey) = some "" :=
  ⟨rfl, rfl, rfl⟩

/-- Claim C5, amended: in the `part_002` variant a run started with an empty
credential for the selected vendor never issues any external call — neither
the transcript command, the fetch, nor `run_pattern` — and ends with an
error message set; the `part_001` variant instead passes the empty
credential through to `run_pattern`. -/
theorem C5_no_key_fails_fast (sp : Option String) (settings : Settings)
    (s0 : AIState) (env : RunEnv)
    (hkey : getApiKey settings settings.vendor = "") :
    (runPattern2 sp settings s0 env).backendInvoked = false ∧
      (runPattern2 sp settings s0 env).transcriptInvoked = false ∧
      (runPattern2 sp settings s0 env).fetchInvoked = false ∧
      (runPattern2 sp settings s0 env).state.error ≠ none := by
  cases sp with
  | none => exact ⟨rfl, rfl, rfl, fun h => Option.noConfusion h⟩
  | some p =>
    simp only [runPattern2]
    by_cases hg : s0.inputText = "" ∧ s0.inputMode ≠ InputMode.text
    · rw [if_pos hg]
      exact ⟨rfl, rfl, rfl, fun h => Option.noConfusion h⟩
    · rw [if_neg hg, if_pos hkey]
      exact ⟨rfl, rfl, rfl, fun h => Option.noConfusion h⟩

/-- Witness for the amended C5: a concrete run with no google key. -/
theorem C5_no_key_fails_fast_witness :
    getApiKey noKeySettings noKeySettings.vendor = "" ∧
      ((runPattern2 (some "summarize") noKeySettings textState okEnv).backendInvoked
          = false ∧
        (runPattern2 (some "summarize") noKeySettings textState okEnv).transcriptInvoked
          = false ∧
        (runPattern2 (some "summarize") noKeySettings textState okEnv).fetchInvoked
          = false ∧
        (runPattern2 (some "summarize") noKeySettings textState okEnv).state.error
          ≠ none) :=
  ⟨rfl, C5_no_key_fails_fast (some "summarize") noKeySettings textState okEnv rfl⟩

/-- Counterexample to claim C7 as stated: in the `part_002` variant a
text-mode run with a selected pattern but an EMPTY input payload is not
rejected — `run_pattern` is invoked with `user_input = ""`. -/
theorem C7_counterexample :
    initialAIState.inputText = "" ∧
      (runPattern2 (some "summarize") cfgSettings initialAIState okEnv).backendInvoked
        = true ∧
      ((runPattern2 (some "summarize") cfgSettings initialAIState okEnv).backendRequest.map
          RunRequest.user_input) = some "" :=
  ⟨rfl, rfl, rfl⟩

/-- Claim C7, amended: a run with no selected pattern issues no external
call in either variant (`part_002` sets the validation message, `part_001`
returns with the state untouched), and in `part_002` an empty input payload
is likewise rejected without any external call in url and youtube modes —
but in text mode an empty payload is not rejected and reaches the backend. -/
theorem C7_no_pattern_no_network (settings : Settings) (s0 : AIState)
    (env : RunEnv) (bf : Option String) :
    ((runPattern2 none settings s0 env).transcriptInvoked = false ∧
        (runPattern2 none settings s0 env).fetchInvoked = false ∧
        (runPattern2 none settings s0 env).backendInvoked = false ∧
        (runPattern2 none settings s0 env).state.error = some validationMsg) ∧
      ((runPattern1 none settings s0 bf).backendInvoked = false ∧
        (runPattern1 none settings s0 bf).state = s0) ∧
      (∀ p, s0.inputText = "" → s0.inputMode ≠ InputMode.text →
        (runPattern2 (some p) settings s0 env).transcriptInvoked = false ∧
          (runPattern2 (some p) settings s0 env).fetchInvoked = false ∧
          (runPattern2 (some p) settings s0 env).backendInvoked = false ∧
          (runPattern2 (some p) settings s0 env).state.error = some validationMsg) := by
  refine ⟨⟨rfl, rfl, rfl, rfl⟩, ⟨rfl, rfl⟩, ?_⟩
  intro p hin hm
  simp only [runPattern2]
  rw [if_pos ⟨hin, hm⟩]
  exact ⟨rfl, rfl, rfl, rfl⟩

/-- Witness for the amended C7: the empty initial state in url mode, with
no pattern for the first part and pattern "summarize" for the last. -/
theorem C7_no_pattern_no_network_witness :
    (runPattern2 none cfgSettings urlState okEnv).backendInvoked = false ∧
      (runPattern1 none cfgSettings urlState none).backendInvoked = false ∧
      ({ urlState with inputText := "" } : AIState).inputText = "" ∧
      ({ urlState with inputText := "" } : AIState).inputMode ≠ InputMode.text ∧
      (runPattern2 (some "summarize") cfgSettings { urlState with inputText := "" }
          okEnv).backendInvoked = false := by
  have h := C7_no_pattern_no_network cfgSettings urlState okEnv none
  have h2 := C7_no_pattern_no_network cfgSettings { urlState with inputText := "" }
    okEnv none
  exact ⟨h.1.2.2.1, h.2.1.1, rfl, by decide,
    (h2.2.2 "summarize" rfl (by decide)).2.2.1⟩

end Fabric
